import Mathlib

/-!
Shallow embedding of the Flappy Bird game loop (main.py).

Numeric model: Python floats are modelled as exact rationals; the per-frame
arithmetic of the source (gravity 0.25, half-point scoring, pixel speeds)
is exactly representable, so the rational model tracks the source's
arithmetic expressions.  Python `int(...)` truncation (used by the
`scale_x`/`scale_y` helpers) is modelled by truncation toward zero, and so
is the truncation pygame Rect performs when a float is assigned to an
integer coordinate: the bird's `centery += bird_movement` update and the
pipes' `centerx -= PIPE_SPEED` update both store the truncated value, while
the velocity `bird_movement` stays an exact float.
-/

/-- Truncation toward zero, the behaviour of Python `int()` on a number. -/
def ratTrunc (q : ℚ) : ℤ := if 0 ≤ q then ⌊q⌋ else -⌊-q⌋

/-- GRAVITY = 0.25, per-frame downward acceleration (main.py line 31). -/
def GRAVITY : ℚ := 1/4

/-- FLAP_STRENGTH = 8, upward velocity impulse on flap (main.py line 32). -/
def FLAP_STRENGTH : ℚ := 8

/-- PIPE_GAP = 300 (main.py line 34). -/
def PIPE_GAP : ℚ := 300

def BASE_SCREEN_WIDTH : ℚ := 576
def BASE_SCREEN_HEIGHT : ℚ := 1024
def BASE_PIPE_SPEED : ℚ := 4
def BASE_BIRD_X : ℚ := 100
def BASE_BIRD_Y : ℚ := 512
def BASE_FLOOR_COLLISION_Y : ℚ := 900
def BASE_CEILING_COLLISION_Y : ℚ := -100
def BASE_PIPE_SPAWN_X : ℚ := 700

/-- Runtime configuration: actual screen size and the (resolution-scaled)
sprite sizes of the bird and pipe surfaces. -/
structure Config where
  W : ℕ
  H : ℕ
  birdW : ℚ
  birdH : ℚ
  pipeW : ℚ
  pipeH : ℚ
deriving DecidableEq

/-- scale_x: scale an X coordinate from base design space (main.py lines 54-56). -/
def scale_x (cfg : Config) (x : ℚ) : ℚ := (ratTrunc (x * cfg.W / BASE_SCREEN_WIDTH) : ℚ)

/-- scale_y: scale a Y coordinate from base design space (main.py lines 59-61). -/
def scale_y (cfg : Config) (y : ℚ) : ℚ := (ratTrunc (y * cfg.H / BASE_SCREEN_HEIGHT) : ℚ)

/-- PIPE_SPEED = BASE_PIPE_SPEED * (SCREEN_WIDTH / BASE_SCREEN_WIDTH) (main.py line 612). -/
def PIPE_SPEED (cfg : Config) : ℚ := BASE_PIPE_SPEED * cfg.W / BASE_SCREEN_WIDTH

/-- An axis-aligned rectangle, the model of a pygame Rect. -/
structure Rect where
  left : ℚ
  top : ℚ
  width : ℚ
  height : ℚ
deriving DecidableEq

def Rect.right (r : Rect) : ℚ := r.left + r.width

def Rect.bottom (r : Rect) : ℚ := r.top + r.height

def Rect.centerx (r : Rect) : ℚ := r.left + r.width / 2

def Rect.centery (r : Rect) : ℚ := r.top + r.height / 2

/-- pygame Rect.colliderect: true when the interiors overlap (shared edges do
not count as a collision). -/
def Rect.colliderect (a b : Rect) : Bool :=
  decide (a.left < b.right) && decide (b.left < a.right) &&
  decide (a.top < b.bottom) && decide (b.top < a.bottom)

/-- The bird rectangle: centered horizontally at scale_x(BASE_BIRD_X) with
vertical center y (bird_rectangle in main.py). -/
def birdRect (cfg : Config) (y : ℚ) : Rect :=
  { left := scale_x cfg BASE_BIRD_X - cfg.birdW / 2
    top := y - cfg.birdH / 2
    width := cfg.birdW
    height := cfg.birdH }

/-- Move one pipe leftward by the per-frame speed (body of the loop in
move_pipes, main.py line 151: pipe.centerx -= PIPE_SPEED).  pygame Rect
coordinates are integers, so the augmented assignment stores
int(centerx - PIPE_SPEED), truncating toward zero. -/
def movePipe (speed : ℚ) (p : Rect) : Rect :=
  { p with left := ((ratTrunc (p.centerx - speed) : ℤ) : ℚ) - p.width / 2 }

/-- move_pipes (main.py lines 140-152): shift every pipe left by PIPE_SPEED;
no pipe is ever dropped from the list. -/
def move_pipes (speed : ℚ) (pipes : List Rect) : List Rect :=
  pipes.map (movePipe speed)

/-- create_pipe (main.py lines 116-137): a bottom pipe anchored midtop at
(spawn_x, ht) and a top pipe anchored midbottom at (spawn_x, ht - PIPE_GAP),
where ht is the randomly chosen pipe height. -/
def create_pipe (cfg : Config) (ht : ℚ) : Rect × Rect :=
  let spawn_x := scale_x cfg BASE_PIPE_SPAWN_X
  ({ left := spawn_x - cfg.pipeW / 2, top := ht, width := cfg.pipeW, height := cfg.pipeH },
   { left := spawn_x - cfg.pipeW / 2, top := ht - PIPE_GAP - cfg.pipeH,
     width := cfg.pipeW, height := cfg.pipeH })

inductive CollisionKind where
  | pipe
  | ceiling
  | floor
deriving DecidableEq

/-- check_collision (main.py lines 177-219).
Input: the current game_active flag, the bird rectangle, and the pipe list.
Output: (collision_result, collision_type, new game_active, death-sound plays).
Pipe intersection is tested first (first intersecting pipe wins), then the
ceiling threshold, then the floor threshold; the death sound is guarded by
game_active so it plays at most once per collision. -/
def check_collision (cfg : Config) (game_active : Bool) (bird : Rect)
    (pipes : List Rect) : Bool × Option CollisionKind × Bool × ℕ :=
  match pipes.find? (fun p => bird.colliderect p) with
  | some _ => (false, some CollisionKind.pipe, false, if game_active then 1 else 0)
  | none =>
    let ceiling_threshold := scale_y cfg BASE_CEILING_COLLISION_Y
    let floor_threshold := scale_y cfg BASE_FLOOR_COLLISION_Y
    if bird.top ≤ ceiling_threshold then
      (false, some CollisionKind.ceiling, false, if game_active then 1 else 0)
    else if floor_threshold ≤ bird.bottom then
      (false, some CollisionKind.floor, false, if game_active then 1 else 0)
    else
      (true, none, game_active, 0)

/-- update_score (main.py lines 456-460): keep the larger of the current
score and the stored high score. -/
def update_score (current_score current_high_score : ℚ) : ℚ :=
  if current_high_score < current_score then current_score else current_high_score

/-- Records emitted by the game loop into the event log. -/
inductive GameLog where
  | collision (kind : CollisionKind)
  | pipePassed (score : ℚ)
deriving DecidableEq

def isCollisionLog : GameLog → Bool
  | GameLog.collision _ => true
  | GameLog.pipePassed _ => false

/-- Python float `score % 1 == 0`: the score is an exact integer. -/
def qIsInt (q : ℚ) : Bool := q.den == 1

/-- The half-open crossing-window test of the scoring loop (main.py line 865):
pipe.centerx <= bird_x < pipe.centerx + PIPE_SPEED. -/
def crossed (bird_x speed : ℚ) (p : Rect) : Bool :=
  decide (p.centerx ≤ bird_x) && decide (bird_x < p.centerx + speed)

/-- The scoring loop (main.py lines 861-869): scan the pipe list in order;
each pipe whose center crossed the bird's X this tick adds 0.5 to the score,
and each time the running score lands on an exact integer the reward sound
plays and a PIPE_PASSED record with the current score is emitted.
Returns (final score, emitted records in order, reward-sound plays). -/
def scorePipes (bird_x speed sc : ℚ) : List Rect → ℚ × List GameLog × ℕ
  | [] => (sc, [], 0)
  | p :: ps =>
    if crossed bird_x speed p then
      let sc2 := sc + 1/2
      let rest := scorePipes bird_x speed sc2 ps
      if qIsInt sc2 then (rest.1, GameLog.pipePassed sc2 :: rest.2.1, rest.2.2 + 1)
      else rest
    else scorePipes bird_x speed sc ps

/-- The mutable game state shared across the loop (main.py lines 641-647
plus the logger's attempt_id and the previous_game_active edge flag). -/
structure GameState where
  active : Bool
  prevActive : Bool
  birdY : ℚ
  birdV : ℚ
  score : ℚ
  highScore : ℚ
  attemptId : ℕ
  pipes : List Rect
deriving DecidableEq

/-- Output of one tick of the main loop: the new state, the log records
emitted, and how many times the death / reward sounds played. -/
structure TickOut where
  state : GameState
  logs : List GameLog
  deathSounds : ℕ
  scoreSounds : ℕ
deriving DecidableEq

/-- One tick of the per-frame body of main (main.py lines 838-878), after
event handling.  While active: gravity is applied to the velocity (a float,
kept exact), then bird_rectangle.centery += bird_movement stores the
truncated integer position (pygame Rect assignment), collision is checked
on the updated rectangle (logging COLLISION once when the result turns
inactive), pipes are moved, and the scoring scan runs over the moved
pipes.  While inactive: only the high score is refreshed. -/
def tick (cfg : Config) (s : GameState) : TickOut :=
  if s.active then
    let v := s.birdV + GRAVITY
    let y : ℚ := ((ratTrunc (s.birdY + v) : ℤ) : ℚ)
    let bird := birdRect cfg y
    let cr := check_collision cfg true bird s.pipes
    let alive := cr.1
    let kind := cr.2.1
    let deaths := cr.2.2.2
    let pipes2 := move_pipes (PIPE_SPEED cfg) s.pipes
    let sres := scorePipes (scale_x cfg BASE_BIRD_X) (PIPE_SPEED cfg) s.score pipes2
    { state := { s with active := alive, birdV := v, birdY := y,
                        pipes := pipes2, score := sres.1 }
      logs := (match kind with
               | some k => if alive then [] else [GameLog.collision k]
               | none => []) ++ sres.2.1
      deathSounds := deaths
      scoreSounds := sres.2.2 }
  else
    { state := { s with highScore := update_score s.score s.highScore }
      logs := []
      deathSounds := 0
      scoreSounds := 0 }

def tickState (cfg : Config) (s : GameState) : GameState := (tick cfg s).state

/-- Input-queue events relevant to the game state (main.py lines 762-833). -/
inductive GEvent where
  | keySpace
  | mouseDown
  | spawnPipe (ht : ℚ)
  | birdFlapTimer
deriving DecidableEq

/-- The flap mechanic (main.py lines 782-785 and 809-813):
bird_movement = 0; bird_movement -= FLAP_STRENGTH. -/
def flapState (s : GameState) : GameState := { s with birdV := 0 - FLAP_STRENGTH }

/-- The restart mechanic (main.py lines 787-794 and 815-822): reactivate,
clear the pipe list, recenter the bird, zero the velocity and score, and
drop the previous_game_active edge flag. -/
def restartState (cfg : Config) (s : GameState) : GameState :=
  { s with active := true
           pipes := []
           birdY := scale_y cfg BASE_BIRD_Y
           birdV := 0
           score := 0
           prevActive := false }

/-- The new-attempt edge detector run before each event's handlers
(main.py lines 763-766): on a rising edge of game_active, increment the
logger's attempt_id and latch previous_game_active. -/
def attemptEdge (s : GameState) : GameState :=
  if !s.prevActive && s.active then
    { s with attemptId := s.attemptId + 1, prevActive := true }
  else s

/-- Processing of one queued event inside the for-loop of main
(main.py lines 762-833): the attempt edge detector runs first, then the
handler for the event's type. -/
def procEvent (cfg : Config) (s : GameState) (e : GEvent) : GameState :=
  let s2 := attemptEdge s
  match e with
  | GEvent.keySpace => if s2.active then flapState s2 else restartState cfg s2
  | GEvent.mouseDown => if s2.active then flapState s2 else restartState cfg s2
  | GEvent.spawnPipe ht =>
      { s2 with pipes := s2.pipes ++ [(create_pipe cfg ht).1, (create_pipe cfg ht).2] }
  | GEvent.birdFlapTimer => s2

def procEvents (cfg : Config) : GameState → List GEvent → GameState :=
  List.foldl (procEvent cfg)

/-- EventLogger state (main.py lines 467-547): whether the CSV writer was
created, the attempt counter, and the rows written so far. -/
structure EventLogger where
  writerOk : Bool
  attempt : ℕ
  rows : List (ℕ × String × String)
deriving DecidableEq

/-- EventLogger.__init__ (main.py lines 499-512): the file-creation attempt
is modelled by its outcome; on failure the writer is set to None. -/
def loggerInit (createResult : Except String Unit) : EventLogger :=
  match createResult with
  | Except.ok _ => { writerOk := true, attempt := 0, rows := [] }
  | Except.error _ => { writerOk := false, attempt := 0, rows := [] }

/-- A single CSV row write, which may raise (modelled by the writeOk flag). -/
def writeRow (writeOk : Bool) (row : ℕ × String × String) :
    Except String (ℕ × String × String) :=
  if writeOk then Except.ok row else Except.error "write failed"

/-- EventLogger.log_event (main.py lines 514-547): return immediately when
the writer is None; otherwise attempt the row write and swallow any failure.
The result is always a plain logger state - no exception escapes. -/
def log_event (lg : EventLogger) (writeOk : Bool) (ev info : String) : EventLogger :=
  if lg.writerOk then
    match writeRow writeOk (lg.attempt, ev, info) with
    | Except.ok row => { lg with rows := lg.rows ++ [row] }
    | Except.error _ => lg
  else lg

/-! ### Shared concrete instances (base design resolution) -/

/-- The base design resolution with the actual scaled sprite sizes
(bird 34x24 and pipe 52x320, each scaled by SPRITE_SCALE = 2). -/
def baseCfg : Config := { W := 576, H := 1024, birdW := 68, birdH := 48, pipeW := 104, pipeH := 640 }

def exActive : GameState :=
  { active := true, prevActive := true, birdY := 512, birdV := 3,
    score := 0, highScore := 0, attemptId := 1, pipes := [] }

def exInactive : GameState :=
  { active := false, prevActive := true, birdY := 700, birdV := 5,
    score := 7, highScore := 4, attemptId := 2, pipes := [] }

/-! ### Helper lemmas -/

lemma attemptEdge_active (s : GameState) : (attemptEdge s).active = s.active := by
  unfold attemptEdge; split <;> rfl

lemma attemptEdge_birdV (s : GameState) : (attemptEdge s).birdV = s.birdV := by
  unfold attemptEdge; split <;> rfl

lemma attemptEdge_attemptId_of_prev (s : GameState) (h : s.prevActive = true) :
    attemptEdge s = s := by
  unfold attemptEdge; simp [h]

lemma flapState_active (s : GameState) : (flapState s).active = s.active := rfl

lemma update_score_eq_max (a b : ℚ) : update_score a b = max a b := by
  unfold update_score
  split_ifs with h
  · exact (max_eq_left h.le).symm
  · exact (max_eq_right (not_lt.mp h)).symm

lemma ratTrunc_intCast (z : ℤ) : ratTrunc ((z : ℤ) : ℚ) = z := by
  unfold ratTrunc
  split_ifs with h
  · exact Int.floor_intCast z
  · rw [← Int.cast_neg, Int.floor_intCast]
    ring

lemma ratTrunc_eq_int (q : ℚ) (n : ℤ) (h0 : 0 ≤ q) (h1 : (n : ℚ) ≤ q) (h2 : q < n + 1) :
    ratTrunc q = n := by
  rw [ratTrunc, if_pos h0]
  rw [Int.floor_eq_iff]
  exact ⟨h1, by exact_mod_cast h2⟩

lemma ratTrunc_gt_int (m : ℤ) (q : ℚ) (h : (m : ℚ) < q) :
    m ≤ ratTrunc q ∧ ((m : ℚ) + 1 ≤ q → m < ratTrunc q) := by
  unfold ratTrunc
  split_ifs with h0
  · constructor
    · exact Int.le_floor.mpr h.le
    · intro h1
      have : m + 1 ≤ ⌊q⌋ := Int.le_floor.mpr (by exact_mod_cast h1)
      omega
  · have hq : q < 0 := lt_of_not_le h0
    have hfl : (⌊-q⌋ : ℚ) ≤ -q := Int.floor_le (-q)
    have hmq : (⌊-q⌋ : ℚ) < ((-m : ℤ) : ℚ) := by
      push_cast
      linarith
    have hz : ⌊-q⌋ < -m := by exact_mod_cast hmq
    constructor
    · omega
    · intro _
      omega

/-! ### Claim theorems -/

/-- C7: after every attempt ends, the stored high score equals
max(previous_high_score, attempt_score); update_score is the running
maximum, hence monotonically non-decreasing, and the inactive branch of
the loop applies it every tick of the game-over state. -/
theorem C7_high_score_max : ∀ (sc h : ℚ),
    update_score sc h = max sc h ∧
    h ≤ update_score sc h ∧
    sc ≤ update_score sc h ∧
    ∀ (cfg : Config) (s : GameState),
      (tick cfg { s with active := false }).state.highScore = max s.score s.highScore := by
  intro sc h
  refine ⟨update_score_eq_max sc h, ?_, ?_, ?_⟩
  · rw [update_score_eq_max]; exact le_max_right sc h
  · rw [update_score_eq_max]; exact le_max_left sc h
  · intro cfg s
    simp [tick, update_score_eq_max]

/-- C8: the event logger fails soft.  A failed file creation leaves the
writer disabled; with the writer disabled every log_event call is a no-op;
a failing row write is swallowed and changes nothing; and in all cases
log_event returns an ordinary logger state (no exception escapes). -/
theorem C8_logger_fail_soft : ∀ (msg : String) (lg : EventLogger) (wOk : Bool) (ev info : String),
    (loggerInit (Except.error msg)).writerOk = false ∧
    log_event { lg with writerOk := false } wOk ev info = { lg with writerOk := false } ∧
    log_event lg false ev info = lg ∧
    log_event (loggerInit (Except.error msg)) wOk ev info = loggerInit (Except.error msg) := by
  intro msg lg wOk ev info
  refine ⟨rfl, by simp [log_event], ?_, by simp [loggerInit, log_event]⟩
  cases h : lg.writerOk <;> simp [log_event, writeRow, h]

/-- C9 (amended): every tick the obstacle-motion step sets each obstacle's
center X to int(centerx - PIPE_SPEED) - the pygame Rect assignment
truncates toward zero, so the decrement equals PIPE_SPEED exactly when the
center and the speed are integers (as at base resolution, where PIPE_SPEED
is 4) and otherwise is the truncated difference; motion never removes any
obstacle (list length and indexing are preserved by move_pipes and by the
whole tick), and obstacles are only removed by the restart transition's
clear. -/
theorem C9_pipes_never_culled_amended : ∀ (speed : ℚ) (pipes : List Rect),
    (move_pipes speed pipes).length = pipes.length ∧
    (∀ i : ℕ, (move_pipes speed pipes)[i]? = (pipes[i]?).map (movePipe speed)) ∧
    (∀ p : Rect, (movePipe speed p).centerx = ((ratTrunc (p.centerx - speed) : ℤ) : ℚ)) ∧
    (∀ (m n : ℤ) (p : Rect), p.centerx = (m : ℚ) →
      (movePipe (n : ℚ) p).centerx = p.centerx - (n : ℚ)) ∧
    (∀ (cfg : Config) (s : GameState), ((tick cfg s).state.pipes).length = s.pipes.length) ∧
    (∀ (cfg : Config) (s : GameState),
      (procEvent cfg { s with active := false } GEvent.keySpace).pipes = []) := by
  intro speed pipes
  have hcx : ∀ (sp : ℚ) (p : Rect),
      (movePipe sp p).centerx = ((ratTrunc (p.centerx - sp) : ℤ) : ℚ) := by
    intro sp p; simp [movePipe, Rect.centerx]
  refine ⟨List.length_map _ _, ?_, hcx speed, ?_, ?_, ?_⟩
  · intro i; simp [move_pipes]
  · intro m n p hm
    rw [hcx (n : ℚ) p, hm]
    rw [show (m : ℚ) - (n : ℚ) = ((m - n : ℤ) : ℚ) by push_cast; ring]
    rw [ratTrunc_intCast]
  · intro cfg s
    cases h : s.active <;> simp [tick, h, move_pipes]
  · intro cfg s
    simp [procEvent, attemptEdge, restartState]

/-- A freshly spawned pipe rectangle at base resolution: center X 700. -/
def pSpawn : Rect := { left := 648, top := 400, width := 104, height := 640 }

/-- A wide-screen configuration (W = 1920), where PIPE_SPEED = 40/3 is not
an integer. -/
def wideCfg : Config :=
  { W := 1920, H := 1080, birdW := 72, birdH := 51, pipeW := 110, pipeH := 675 }

/-- C9 counterexample: the claim as stated ("centerx decreases by exactly
PIPE_SPEED") is false of the code.  At W = 1920 the speed is 40/3; the
program truncates 700 - 40/3 to 686, a decrement of 14, not 40/3. -/
theorem C9_exact_speed_cex :
    (movePipe (PIPE_SPEED wideCfg) pSpawn).centerx ≠ pSpawn.centerx - PIPE_SPEED wideCfg := by
  have hsp : PIPE_SPEED wideCfg = 40/3 := by
    norm_num [PIPE_SPEED, BASE_PIPE_SPEED, BASE_SCREEN_WIDTH, wideCfg]
  have hcx : pSpawn.centerx = 700 := by norm_num [pSpawn, Rect.centerx]
  have h1 : (movePipe (PIPE_SPEED wideCfg) pSpawn).centerx
      = ((ratTrunc (pSpawn.centerx - PIPE_SPEED wideCfg) : ℤ) : ℚ) := by
    simp [movePipe, Rect.centerx]
  rw [h1, hcx, hsp]
  rw [show ratTrunc ((700 : ℚ) - 40/3) = 686 from
    ratTrunc_eq_int _ _ (by norm_num) (by norm_num) (by norm_num)]
  norm_num

/-- C9 witness: at base resolution (integer speed 4) the spawned pipe's
center moves by exactly the speed, from 700 to 696. -/
theorem C9_pipes_never_culled_amended_witness :
    pSpawn.centerx = ((700 : ℤ) : ℚ) ∧
    (movePipe ((4 : ℤ) : ℚ) pSpawn).centerx = pSpawn.centerx - ((4 : ℤ) : ℚ) := by
  have hm : pSpawn.centerx = ((700 : ℤ) : ℚ) := by norm_num [pSpawn, Rect.centerx]
  exact ⟨hm, (C9_pipes_never_culled_amended ((4 : ℤ) : ℚ) []).2.2.2.1 700 4 pSpawn hm⟩

/-- C2: a flap input (space key or pointer press) while active sets the
vertical velocity to exactly -FLAP_STRENGTH regardless of the prior
velocity, so a second flap leaves the velocity unchanged. -/
theorem C2_flap_absolute : ∀ (cfg : Config) (s : GameState) (e : GEvent),
    s.active = true → (e = GEvent.keySpace ∨ e = GEvent.mouseDown) →
    (procEvent cfg s e).birdV = -FLAP_STRENGTH ∧
    (procEvent cfg (procEvent cfg s e) e).birdV = (procEvent cfg s e).birdV := by
  intro cfg s e hact he
  have hflap : ∀ t : GameState, t.active = true →
      (procEvent cfg t e).birdV = -FLAP_STRENGTH ∧ (procEvent cfg t e).active = true := by
    intro t ht
    have h2 : (attemptEdge t).active = true := by rw [attemptEdge_active]; exact ht
    rcases he with rfl | rfl <;>
      simp [procEvent, h2, flapState, FLAP_STRENGTH]
  have h1 := hflap s hact
  have h2 := hflap (procEvent cfg s e) h1.2
  exact ⟨h1.1, by rw [h2.1, h1.1]⟩

/-- C2 witness at a concrete active state. -/
theorem C2_flap_absolute_witness :
    (procEvent baseCfg exActive GEvent.keySpace).birdV = -FLAP_STRENGTH ∧
    (procEvent baseCfg (procEvent baseCfg exActive GEvent.keySpace) GEvent.keySpace).birdV =
      (procEvent baseCfg exActive GEvent.keySpace).birdV :=
  C2_flap_absolute baseCfg exActive GEvent.keySpace rfl (Or.inl rfl)

lemma attemptEdge_of_inactive (s : GameState) (h : s.active = false) :
    attemptEdge s = s := by
  unfold attemptEdge; simp [h]

lemma procEvent_preserves (cfg : Config) (s : GameState) (e : GEvent)
    (ha : s.active = true) (hp : s.prevActive = true) :
    (procEvent cfg s e).active = true ∧ (procEvent cfg s e).prevActive = true ∧
    (procEvent cfg s e).attemptId = s.attemptId := by
  have hs2 : attemptEdge s = s := attemptEdge_attemptId_of_prev s hp
  cases e <;> simp [procEvent, hs2, ha, hp, flapState]

lemma procEvents_preserves (cfg : Config) : ∀ (es : List GEvent) (s : GameState),
    s.active = true → s.prevActive = true →
    (procEvents cfg s es).attemptId = s.attemptId ∧
    (procEvents cfg s es).active = true ∧
    (procEvents cfg s es).prevActive = true := by
  intro es
  induction es with
  | nil => intro s ha hp; exact ⟨rfl, ha, hp⟩
  | cons e es ih =>
    intro s ha hp
    have h1 := procEvent_preserves cfg s e ha hp
    have h2 := ih (procEvent cfg s e) h1.1 h1.2.1
    refine ⟨?_, h2.2.1, h2.2.2⟩
    show (procEvents cfg (procEvent cfg s e) es).attemptId = s.attemptId
    rw [h2.1, h1.2.2]

lemma procEvent_rising (cfg : Config) (s : GameState) (e : GEvent)
    (ha : s.active = true) (hp : s.prevActive = false) :
    (procEvent cfg s e).attemptId = s.attemptId + 1 ∧
    (procEvent cfg s e).active = true ∧
    (procEvent cfg s e).prevActive = true := by
  have hs2 : attemptEdge s = { s with attemptId := s.attemptId + 1, prevActive := true } := by
    unfold attemptEdge; simp [ha, hp]
  cases e <;> simp [procEvent, hs2, ha, flapState]

/-- C5: a flap-equivalent input (space key or pointer press) while inactive
restarts the session: it activates the game, clears the obstacle list,
resets the bird to the fixed origin with zero velocity, resets the score to
zero, and the attempt counter rises by exactly one at this rising edge (the
edge detector fires at the next processed event and never again while the
attempt lasts). -/
theorem C5_restart_resets : ∀ (cfg : Config) (s : GameState) (e : GEvent),
    s.active = false → (e = GEvent.keySpace ∨ e = GEvent.mouseDown) →
    (procEvent cfg s e).active = true ∧
    (procEvent cfg s e).pipes = [] ∧
    (procEvent cfg s e).birdY = scale_y cfg BASE_BIRD_Y ∧
    (procEvent cfg s e).birdV = 0 ∧
    (procEvent cfg s e).score = 0 ∧
    (procEvent cfg s e).attemptId = s.attemptId ∧
    (∀ es : List GEvent, es ≠ [] →
      (procEvents cfg (procEvent cfg s e) es).attemptId = s.attemptId + 1) := by
  intro cfg s e ha he
  have hs2 : attemptEdge s = s := attemptEdge_of_inactive s ha
  have hres : procEvent cfg s e = restartState cfg s := by
    rcases he with rfl | rfl <;> simp [procEvent, hs2, ha]
  rw [hres]
  refine ⟨rfl, rfl, rfl, rfl, rfl, rfl, ?_⟩
  intro es hes
  match es, hes with
  | e2 :: es', _ =>
    have hr1 : (restartState cfg s).active = true := rfl
    have hr2 : (restartState cfg s).prevActive = false := rfl
    have h1 := procEvent_rising cfg (restartState cfg s) e2 hr1 hr2
    have h2 := procEvents_preserves cfg es' (procEvent cfg (restartState cfg s) e2) h1.2.1 h1.2.2
    show (procEvents cfg (procEvent cfg (restartState cfg s) e2) es').attemptId = s.attemptId + 1
    rw [h2.1, h1.1]
    rfl

/-- C5 witness at a concrete inactive state. -/
theorem C5_restart_resets_witness :
    (procEvent baseCfg exInactive GEvent.keySpace).active = true ∧
    (procEvent baseCfg exInactive GEvent.keySpace).pipes = [] ∧
    (procEvent baseCfg exInactive GEvent.keySpace).score = 0 ∧
    (procEvents baseCfg (procEvent baseCfg exInactive GEvent.keySpace)
      [GEvent.birdFlapTimer]).attemptId = exInactive.attemptId + 1 := by
  have h := C5_restart_resets baseCfg exInactive GEvent.keySpace rfl (Or.inl rfl)
  exact ⟨h.1, h.2.1, h.2.2.2.2.1, h.2.2.2.2.2.2 [GEvent.birdFlapTimer] (by simp)⟩

lemma tick_active_birdY (cfg : Config) (s : GameState) (h : s.active = true) :
    (tick cfg s).state.birdY = ((ratTrunc (s.birdY + (s.birdV + GRAVITY)) : ℤ) : ℚ) := by
  simp [tick, h]

lemma tick_active_birdV (cfg : Config) (s : GameState) (h : s.active = true) :
    (tick cfg s).state.birdV = s.birdV + GRAVITY := by
  simp [tick, h]

/-- C6 (amended): while the session is active and the bird is falling
(positive vertical velocity) from an integer position (the invariant the
pygame Rect maintains), the position is non-decreasing from one tick to the
next, and strictly increases whenever the post-gravity velocity
birdV + GRAVITY is at least one pixel per frame; when it is below one, the
truncated integer position can stall for a tick. -/
theorem C6_falling_nondecreasing : ∀ (cfg : Config) (s : GameState) (m : ℤ),
    s.active = true → s.birdY = (m : ℚ) → 0 < s.birdV →
    s.birdY ≤ (tick cfg s).state.birdY ∧
    (1 ≤ s.birdV + GRAVITY → s.birdY < (tick cfg s).state.birdY) := by
  intro cfg s m hact hy hv
  have hg : (0 : ℚ) < GRAVITY := by norm_num [GRAVITY]
  rw [tick_active_birdY cfg s hact, hy]
  have hlt : (m : ℚ) < (m : ℚ) + (s.birdV + GRAVITY) := by linarith
  have h2 := ratTrunc_gt_int m ((m : ℚ) + (s.birdV + GRAVITY)) hlt
  constructor
  · exact_mod_cast h2.1
  · intro h1
    exact_mod_cast h2.2 (by linarith)

/-- A concrete falling state just past the flap apex: velocity 1/2, so the
post-gravity velocity 3/4 is below one pixel per frame. -/
def exStall : GameState :=
  { active := true, prevActive := true, birdY := 500, birdV := 1/2,
    score := 0, highScore := 0, attemptId := 1, pipes := [] }

/-- C6 counterexample: the claim as stated is false of the code.  At the
active falling state exStall (position 500, velocity 1/2) the truncated
position update leaves the position at 500: it does not strictly
increase. -/
theorem C6_falling_stall_cex :
    exStall.active = true ∧ 0 < exStall.birdV ∧
    ¬ (exStall.birdY < (tick baseCfg exStall).state.birdY) := by
  refine ⟨rfl, by norm_num [exStall], ?_⟩
  rw [tick_active_birdY baseCfg exStall rfl]
  rw [show ratTrunc (exStall.birdY + (exStall.birdV + GRAVITY)) = 500 from
    ratTrunc_eq_int _ _ (by norm_num [exStall, GRAVITY]) (by norm_num [exStall, GRAVITY])
      (by norm_num [exStall, GRAVITY])]
  norm_num [exStall]

/-- C6 witness at a concrete falling state with velocity 3 (post-gravity
velocity well above one), where the increase is strict. -/
theorem C6_falling_nondecreasing_witness :
    0 < exActive.birdV ∧ (1 : ℚ) ≤ exActive.birdV + GRAVITY ∧
    exActive.birdY ≤ (tick baseCfg exActive).state.birdY ∧
    exActive.birdY < (tick baseCfg exActive).state.birdY := by
  have h := C6_falling_nondecreasing baseCfg exActive 512 rfl (by norm_num [exActive])
    (by norm_num [exActive])
  exact ⟨by norm_num [exActive], by norm_num [exActive, GRAVITY], h.1,
    h.2 (by norm_num [exActive, GRAVITY])⟩
lemma scorePipes_cons (b v sc : ℚ) (p : Rect) (ps : List Rect) :
    scorePipes b v sc (p :: ps) =
      if crossed b v p then
        (if qIsInt (sc + 1/2) then
          ((scorePipes b v (sc + 1/2) ps).1,
           GameLog.pipePassed (sc + 1/2) :: (scorePipes b v (sc + 1/2) ps).2.1,
           (scorePipes b v (sc + 1/2) ps).2.2 + 1)
         else scorePipes b v (sc + 1/2) ps)
      else scorePipes b v sc ps := rfl

lemma scorePipes_score (b v : ℚ) : ∀ (ps : List Rect) (sc : ℚ),
    (scorePipes b v sc ps).1 = sc + (ps.countP (crossed b v) : ℚ) / 2 := by
  intro ps
  induction ps with
  | nil => intro sc; simp [scorePipes]
  | cons p ps ih =>
    intro sc
    rw [scorePipes_cons]
    by_cases hc : crossed b v p = true
    case neg =>
      rw [if_neg hc, ih]
      simp [List.countP_cons, hc]
    case pos =>
      rw [if_pos hc]
      have hfst : (if qIsInt (sc + 1/2) then
          ((scorePipes b v (sc + 1/2) ps).1,
           GameLog.pipePassed (sc + 1/2) :: (scorePipes b v (sc + 1/2) ps).2.1,
           (scorePipes b v (sc + 1/2) ps).2.2 + 1)
         else scorePipes b v (sc + 1/2) ps).1 = (scorePipes b v (sc + 1/2) ps).1 := by
        cases hq : qIsInt (sc + 1/2) <;> simp [hq]
      rw [hfst, ih]
      rw [List.countP_cons, hc, if_pos rfl]
      push_cast
      ring

lemma scorePipes_events (b v : ℚ) : ∀ (ps : List Rect) (sc : ℚ),
    (scorePipes b v sc ps).2.2 = (scorePipes b v sc ps).2.1.length ∧
    ∀ l ∈ (scorePipes b v sc ps).2.1, ∃ n : ℤ, l = GameLog.pipePassed (n : ℚ) := by
  intro ps
  induction ps with
  | nil => intro sc; simp [scorePipes]
  | cons p ps ih =>
    intro sc
    rw [scorePipes_cons]
    by_cases hc : crossed b v p = true
    case neg => rw [if_neg hc]; exact ih sc
    case pos =>
      rw [if_pos hc]
      by_cases hq : qIsInt (sc + 1/2) = true
      case neg => rw [if_neg hq]; exact ih (sc + 1/2)
      case pos =>
        rw [if_pos hq]
        have hden : (sc + 1/2).den = 1 := by simpa [qIsInt] using hq
        constructor
        · show (scorePipes b v (sc + 1/2) ps).2.2 + 1 =
            (GameLog.pipePassed (sc + 1/2) :: (scorePipes b v (sc + 1/2) ps).2.1).length
          rw [List.length_cons, (ih (sc + 1/2)).1]
        · intro l hl
          rcases List.mem_cons.mp hl with rfl | hl
          · exact ⟨(sc + 1/2).num,
              congrArg GameLog.pipePassed (Rat.coe_int_num_of_den_eq_one hden).symm⟩
          · exact (ih (sc + 1/2)).2 l hl

lemma scorePipes_no_collision_log (b v sc : ℚ) (ps : List Rect) :
    ∀ l ∈ (scorePipes b v sc ps).2.1, isCollisionLog l = false := by
  intro l hl
  rcases (scorePipes_events b v ps sc).2 l hl with ⟨n, rfl⟩
  rfl

lemma create_pipe_shared_centerx (cfg : Config) (ht : ℚ) :
    ((create_pipe cfg ht).1).centerx = ((create_pipe cfg ht).2).centerx := rfl

lemma crossed_congr (b v : ℚ) (p q : Rect) (h : p.centerx = q.centerx) :
    crossed b v p = crossed b v q := by
  simp [crossed, h]

lemma scorePipes_pair (b v sc : ℚ) (p q : Rect)
    (hp : crossed b v p = true) (hq : crossed b v q = true) :
    (scorePipes b v sc [p, q]).1 = sc + 1 := by
  rw [scorePipes_score]
  simp [List.countP_cons, hp, hq]

lemma scorePipes_single_int (b v sc : ℚ) (p : Rect)
    (hp : crossed b v p = true) (hq : qIsInt (sc + 1/2) = true) :
    scorePipes b v sc [p] = (sc + 1/2, [GameLog.pipePassed (sc + 1/2)], 1) := by
  rw [scorePipes_cons, if_pos hp, if_pos hq]
  rfl

lemma tick_active_score (cfg : Config) (s : GameState) (h : s.active = true) :
    (tick cfg s).state.score = s.score +
      ((move_pipes (PIPE_SPEED cfg) s.pipes).countP
        (crossed (scale_x cfg BASE_BIRD_X) (PIPE_SPEED cfg)) : ℚ) / 2 := by
  simp [tick, h, scorePipes_score]

/-- C1: while active, each obstacle rectangle whose center satisfies the
half-open window test centerx <= bird_x < centerx + PIPE_SPEED contributes
exactly 0.5 to the score that tick; the two rectangles of a pipe pair share
one spawn X, so they cross in the same tick and together contribute 1.0;
and whenever the running score lands on an exact integer value the reward
sound plays and a PIPE_PASSED record carrying that integer score is
emitted (the sound count equals the record count, and every record's score
is an integer). -/
theorem C1_scoring_half_points :
    (∀ (b v sc : ℚ) (ps : List Rect),
      (scorePipes b v sc ps).1 = sc + (ps.countP (crossed b v) : ℚ) / 2) ∧
    (∀ (cfg : Config) (s : GameState), s.active = true →
      (tick cfg s).state.score = s.score +
        ((move_pipes (PIPE_SPEED cfg) s.pipes).countP
          (crossed (scale_x cfg BASE_BIRD_X) (PIPE_SPEED cfg)) : ℚ) / 2) ∧
    (∀ (cfg : Config) (ht : ℚ),
      ((create_pipe cfg ht).1).centerx = ((create_pipe cfg ht).2).centerx) ∧
    (∀ (b v : ℚ) (p q : Rect), p.centerx = q.centerx → crossed b v p = crossed b v q) ∧
    (∀ (b v sc : ℚ) (p q : Rect), crossed b v p = true → crossed b v q = true →
      (scorePipes b v sc [p, q]).1 = sc + 1) ∧
    (∀ (b v sc : ℚ) (p : Rect), crossed b v p = true → qIsInt (sc + 1/2) = true →
      scorePipes b v sc [p] = (sc + 1/2, [GameLog.pipePassed (sc + 1/2)], 1)) ∧
    (∀ (b v sc : ℚ) (ps : List Rect),
      (scorePipes b v sc ps).2.2 = (scorePipes b v sc ps).2.1.length ∧
      ∀ l ∈ (scorePipes b v sc ps).2.1, ∃ n : ℤ, l = GameLog.pipePassed (n : ℚ)) :=
  ⟨fun b v sc ps => scorePipes_score b v ps sc,
   tick_active_score,
   create_pipe_shared_centerx,
   crossed_congr,
   scorePipes_pair,
   scorePipes_single_int,
   fun b v sc ps => scorePipes_events b v ps sc⟩

/-- A concrete rectangle whose center (x = 100) sits exactly on the bird's
horizontal position at base resolution. -/
def pCross : Rect := { left := 48, top := 400, width := 104, height := 640 }

/-- C1 witness: at base resolution (bird_x = 100, speed 4) the concrete
rectangle pCross crosses, a crossed pair scores 1.0, and a crossing that
lands the score on the integer 1 emits one PIPE_PASSED record and one
reward sound. -/
theorem C1_scoring_half_points_witness :
    crossed 100 4 pCross = true ∧ qIsInt ((1:ℚ)/2 + 1/2) = true ∧
    (scorePipes 100 4 0 [pCross, pCross]).1 = 0 + 1 ∧
    scorePipes 100 4 (1/2) [pCross] =
      (1/2 + 1/2, [GameLog.pipePassed (1/2 + 1/2)], 1) := by
  have hc : crossed 100 4 pCross = true := by
    simp [crossed, pCross, Rect.centerx]
    norm_num
  have hq : qIsInt ((1:ℚ)/2 + 1/2) = true := by
    norm_num [qIsInt]
  exact ⟨hc, hq,
    C1_scoring_half_points.2.2.2.2.1 100 4 0 pCross pCross hc hc,
    C1_scoring_half_points.2.2.2.2.2.1 100 4 (1/2) pCross hc hq⟩

lemma check_collision_eq (cfg : Config) (a : Bool) (bird : Rect) (ps : List Rect) :
    check_collision cfg a bird ps =
      match ps.find? (fun p => bird.colliderect p) with
      | some _ => (false, some CollisionKind.pipe, false, if a then 1 else 0)
      | none =>
        if bird.top ≤ scale_y cfg BASE_CEILING_COLLISION_Y then
          (false, some CollisionKind.ceiling, false, if a then 1 else 0)
        else if scale_y cfg BASE_FLOOR_COLLISION_Y ≤ bird.bottom then
          (false, some CollisionKind.floor, false, if a then 1 else 0)
        else (true, none, a, 0) := rfl

lemma check_collision_some (cfg : Config) (a : Bool) (bird : Rect) (ps : List Rect)
    (k : CollisionKind) (h : (check_collision cfg a bird ps).2.1 = some k) :
    (check_collision cfg a bird ps).1 = false ∧
    (check_collision cfg a bird ps).2.2.2 = (if a then 1 else 0) := by
  rw [check_collision_eq] at h ⊢
  rcases hf : ps.find? (fun p => bird.colliderect p) with _ | p <;>
    simp only [hf] at h ⊢
  · split_ifs at h ⊢ <;> simp_all
  · simp

lemma check_collision_pipe_kind (cfg : Config) (a : Bool) (bird : Rect) (ps : List Rect)
    (h : ∃ p ∈ ps, bird.colliderect p = true) :
    (check_collision cfg a bird ps).2.1 = some CollisionKind.pipe := by
  have hs : (ps.find? (fun p => bird.colliderect p)).isSome = true :=
    List.find?_isSome.mpr (by simpa using h)
  rcases hf : ps.find? (fun p => bird.colliderect p) with _ | p
  · rw [hf] at hs; simp at hs
  · rw [check_collision_eq]; simp only [hf]

lemma find?_none_of_all_false (bird : Rect) (ps : List Rect)
    (hnp : ∀ p ∈ ps, bird.colliderect p = false) :
    ps.find? (fun p => bird.colliderect p) = none :=
  List.find?_eq_none.mpr (by intro x hx; simp [hnp x hx])

lemma check_collision_ceiling_kind (cfg : Config) (a : Bool) (bird : Rect) (ps : List Rect)
    (hnp : ∀ p ∈ ps, bird.colliderect p = false)
    (hc : bird.top ≤ scale_y cfg BASE_CEILING_COLLISION_Y) :
    (check_collision cfg a bird ps).2.1 = some CollisionKind.ceiling := by
  rw [check_collision_eq]
  simp only [find?_none_of_all_false bird ps hnp]
  rw [if_pos hc]

lemma check_collision_floor_kind (cfg : Config) (a : Bool) (bird : Rect) (ps : List Rect)
    (hnp : ∀ p ∈ ps, bird.colliderect p = false)
    (hc : scale_y cfg BASE_CEILING_COLLISION_Y < bird.top)
    (hfl : scale_y cfg BASE_FLOOR_COLLISION_Y ≤ bird.bottom) :
    (check_collision cfg a bird ps).2.1 = some CollisionKind.floor := by
  rw [check_collision_eq]
  simp only [find?_none_of_all_false bird ps hnp]
  rw [if_neg (not_le.mpr hc), if_pos hfl]

lemma check_collision_clear (cfg : Config) (a : Bool) (bird : Rect) (ps : List Rect)
    (hnp : ∀ p ∈ ps, bird.colliderect p = false)
    (h1 : scale_y cfg BASE_CEILING_COLLISION_Y < bird.top)
    (h2 : bird.bottom < scale_y cfg BASE_FLOOR_COLLISION_Y) :
    check_collision cfg a bird ps = (true, none, a, 0) := by
  rw [check_collision_eq]
  simp only [find?_none_of_all_false bird ps hnp]
  rw [if_neg (not_le.mpr h1), if_neg (not_le.mpr h2)]

lemma tick_active_deaths (cfg : Config) (s : GameState) (h : s.active = true) :
    (tick cfg s).deathSounds =
      (check_collision cfg true (birdRect cfg ((ratTrunc (s.birdY + (s.birdV + GRAVITY)) : ℤ) : ℚ)) s.pipes).2.2.2 := by
  simp [tick, h]

lemma tick_active_alive (cfg : Config) (s : GameState) (h : s.active = true) :
    (tick cfg s).state.active =
      (check_collision cfg true (birdRect cfg ((ratTrunc (s.birdY + (s.birdV + GRAVITY)) : ℤ) : ℚ)) s.pipes).1 := by
  simp [tick, h]

lemma tick_active_logs (cfg : Config) (s : GameState) (h : s.active = true) :
    (tick cfg s).logs =
      (match (check_collision cfg true (birdRect cfg ((ratTrunc (s.birdY + (s.birdV + GRAVITY)) : ℤ) : ℚ)) s.pipes).2.1 with
       | some k =>
         if (check_collision cfg true (birdRect cfg ((ratTrunc (s.birdY + (s.birdV + GRAVITY)) : ℤ) : ℚ)) s.pipes).1 then []
         else [GameLog.collision k]
       | none => []) ++
      (scorePipes (scale_x cfg BASE_BIRD_X) (PIPE_SPEED cfg) s.score
        (move_pipes (PIPE_SPEED cfg) s.pipes)).2.1 := by
  simp [tick, h]

lemma tick_inactive (cfg : Config) (s : GameState) (h : s.active = false) :
    tick cfg s = { state := { s with highScore := update_score s.score s.highScore },
                   logs := [], deathSounds := 0, scoreSounds := 0 } := by
  simp [tick, h]

lemma tickState_inactive_active (cfg : Config) (s : GameState) (h : s.active = false) :
    (tickState cfg s).active = false := by
  rw [tickState, tick_inactive cfg s h]
  exact h

lemma iter_inactive (cfg : Config) : ∀ (n : ℕ) (s : GameState), s.active = false →
    ((tickState cfg)^[n] s).active = false := by
  intro n
  induction n with
  | zero => intro s h; exact h
  | succ n ih =>
    intro s h
    rw [Function.iterate_succ_apply]
    exact ih _ (tickState_inactive_active cfg s h)

/-- C4: a collision ends the attempt exactly once.  On a tick where
check_collision reports a collision kind, the death sound plays exactly
once, exactly one COLLISION record with that kind is emitted, and the
session becomes inactive; every subsequent tick stays inactive and
produces neither a death sound nor any log record.  The collision kind is
determined with pipe intersection first, then the ceiling threshold, then
the floor threshold. -/
theorem C4_collision_ends_once : ∀ (cfg : Config) (s : GameState) (k : CollisionKind),
    s.active = true →
    (check_collision cfg true (birdRect cfg ((ratTrunc (s.birdY + (s.birdV + GRAVITY)) : ℤ) : ℚ)) s.pipes).2.1 = some k →
    (tick cfg s).deathSounds = 1 ∧
    (tick cfg s).logs.filter isCollisionLog = [GameLog.collision k] ∧
    (tick cfg s).state.active = false ∧
    (∀ n : ℕ, ((tickState cfg)^[n] (tick cfg s).state).active = false) ∧
    (∀ n : ℕ,
      (tick cfg ((tickState cfg)^[n] (tick cfg s).state)).deathSounds = 0 ∧
      (tick cfg ((tickState cfg)^[n] (tick cfg s).state)).logs = []) ∧
    (∀ (bird : Rect) (ps : List Rect), (∃ p ∈ ps, bird.colliderect p = true) →
      (check_collision cfg true bird ps).2.1 = some CollisionKind.pipe) ∧
    (∀ (bird : Rect) (ps : List Rect), (∀ p ∈ ps, bird.colliderect p = false) →
      bird.top ≤ scale_y cfg BASE_CEILING_COLLISION_Y →
      (check_collision cfg true bird ps).2.1 = some CollisionKind.ceiling) ∧
    (∀ (bird : Rect) (ps : List Rect), (∀ p ∈ ps, bird.colliderect p = false) →
      scale_y cfg BASE_CEILING_COLLISION_Y < bird.top →
      scale_y cfg BASE_FLOOR_COLLISION_Y ≤ bird.bottom →
      (check_collision cfg true bird ps).2.1 = some CollisionKind.floor) := by
  intro cfg s k hact hk
  have hsome := check_collision_some cfg true
    (birdRect cfg ((ratTrunc (s.birdY + (s.birdV + GRAVITY)) : ℤ) : ℚ)) s.pipes k hk
  have halive : (tick cfg s).state.active = false := by
    rw [tick_active_alive cfg s hact]; exact hsome.1
  refine ⟨?_, ?_, halive, ?_, ?_, ?_, ?_, ?_⟩
  · rw [tick_active_deaths cfg s hact, hsome.2]; rfl
  · have hnil : List.filter isCollisionLog
        (scorePipes (scale_x cfg BASE_BIRD_X) (PIPE_SPEED cfg) s.score
          (move_pipes (PIPE_SPEED cfg) s.pipes)).2.1 = [] :=
      List.filter_eq_nil_iff.mpr (fun l hl => by
        simp [scorePipes_no_collision_log _ _ _ _ l hl])
    rw [tick_active_logs cfg s hact, hk, hsome.1, List.filter_append, hnil]
    simp [isCollisionLog]
  · intro n; exact iter_inactive cfg n _ halive
  · intro n
    have hin : ((tickState cfg)^[n] (tick cfg s).state).active = false :=
      iter_inactive cfg n _ halive
    rw [tick_inactive cfg _ hin]
    exact ⟨rfl, rfl⟩
  · exact check_collision_pipe_kind cfg true
  · exact check_collision_ceiling_kind cfg true
  · exact check_collision_floor_kind cfg true

lemma base_ceiling : scale_y baseCfg BASE_CEILING_COLLISION_Y = -100 := by
  have h1 : BASE_CEILING_COLLISION_Y * (baseCfg.H : ℚ) / BASE_SCREEN_HEIGHT = -100 := by
    norm_num [BASE_CEILING_COLLISION_Y, BASE_SCREEN_HEIGHT, baseCfg]
  rw [scale_y, h1, ratTrunc]
  norm_num

lemma base_floor : scale_y baseCfg BASE_FLOOR_COLLISION_Y = 900 := by
  have h1 : BASE_FLOOR_COLLISION_Y * (baseCfg.H : ℚ) / BASE_SCREEN_HEIGHT = 900 := by
    norm_num [BASE_FLOOR_COLLISION_Y, BASE_SCREEN_HEIGHT, baseCfg]
  rw [scale_y, h1, ratTrunc]
  norm_num

lemma base_birdY : scale_y baseCfg BASE_BIRD_Y = 512 := by
  have h1 : BASE_BIRD_Y * (baseCfg.H : ℚ) / BASE_SCREEN_HEIGHT = 512 := by
    norm_num [BASE_BIRD_Y, BASE_SCREEN_HEIGHT, baseCfg]
  rw [scale_y, h1, ratTrunc]
  norm_num

lemma base_birdX : scale_x baseCfg BASE_BIRD_X = 100 := by
  have h1 : BASE_BIRD_X * (baseCfg.W : ℚ) / BASE_SCREEN_WIDTH = 100 := by
    norm_num [BASE_BIRD_X, BASE_SCREEN_WIDTH, baseCfg]
  rw [scale_x, h1, ratTrunc]
  norm_num

lemma base_speed : PIPE_SPEED baseCfg = 4 := by
  norm_num [PIPE_SPEED, BASE_PIPE_SPEED, BASE_SCREEN_WIDTH, baseCfg]

/-- A concrete active state one tick away from a floor collision. -/
def exFall : GameState :=
  { active := true, prevActive := true, birdY := 900, birdV := 5,
    score := 2, highScore := 0, attemptId := 1, pipes := [] }

/-- C4 witness: at base resolution, the falling state exFall collides with
the floor on the next tick; the sound and the COLLISION record occur once
and never again over the following inactive ticks. -/
theorem C4_collision_ends_once_witness :
    exFall.active = true ∧
    (tick baseCfg exFall).deathSounds = 1 ∧
    (tick baseCfg exFall).logs.filter isCollisionLog = [GameLog.collision CollisionKind.floor] ∧
    (tick baseCfg exFall).state.active = false ∧
    ((tickState baseCfg)^[3] (tick baseCfg exFall).state).active = false ∧
    (tick baseCfg ((tickState baseCfg)^[3] (tick baseCfg exFall).state)).logs = [] := by
  have htr : ratTrunc (exFall.birdY + (exFall.birdV + GRAVITY)) = 905 :=
    ratTrunc_eq_int _ _ (by norm_num [exFall, GRAVITY]) (by norm_num [exFall, GRAVITY])
      (by norm_num [exFall, GRAVITY])
  have hk : (check_collision baseCfg true
      (birdRect baseCfg ((ratTrunc (exFall.birdY + (exFall.birdV + GRAVITY)) : ℤ) : ℚ))
      exFall.pipes).2.1 = some CollisionKind.floor := by
    rw [htr]
    apply check_collision_floor_kind
    · intro p hp; simp [exFall] at hp
    · rw [base_ceiling]; norm_num [birdRect, baseCfg]
    · rw [base_floor]; norm_num [birdRect, baseCfg, Rect.bottom]
  have h := C4_collision_ends_once baseCfg exFall CollisionKind.floor rfl hk
  exact ⟨rfl, h.1, h.2.1, h.2.2.1, h.2.2.2.1 3, (h.2.2.2.2.1 3).2⟩

lemma tick_noPipes (cfg : Config) (s : GameState) (ha : s.active = true) (hp : s.pipes = [])
    (y2 : ℤ) (hy2 : ratTrunc (s.birdY + (s.birdV + GRAVITY)) = y2)
    (hceil : scale_y cfg BASE_CEILING_COLLISION_Y < (y2 : ℚ) - cfg.birdH / 2)
    (hfloor : (y2 : ℚ) + cfg.birdH / 2 < scale_y cfg BASE_FLOOR_COLLISION_Y) :
    tickState cfg s = { s with birdV := s.birdV + GRAVITY, birdY := (y2 : ℚ) } := by
  have hcc : check_collision cfg true (birdRect cfg ((y2 : ℤ) : ℚ)) s.pipes
      = (true, none, true, 0) := by
    apply check_collision_clear
    · intro p hp2; rw [hp] at hp2; simp at hp2
    · simpa [birdRect] using hceil
    · have hb : (birdRect cfg ((y2 : ℤ) : ℚ)).bottom = (y2 : ℚ) + cfg.birdH / 2 := by
        simp [birdRect, Rect.bottom]; ring
      rw [hb]; exact hfloor
  rcases s with ⟨sa, spv, sy, sv, ssc, shs, said, spl⟩
  replace ha : sa = true := ha
  replace hp : spl = [] := hp
  subst ha hp
  replace hy2 : ratTrunc (sy + (sv + GRAVITY)) = y2 := hy2
  simp [tickState, tick, hy2, hcc, move_pipes, scorePipes]

lemma iterate_step {α : Type} (f : α → α) (n : ℕ) (x y z : α)
    (h1 : f^[n] x = y) (h2 : f y = z) : f^[n + 1] x = z := by
  rw [Function.iterate_succ_apply', h1, h2]

/-- A state of the post-flap glide at base resolution: active, no pipes,
integer position y and velocity v. -/
def trajSt (y v : ℚ) : GameState :=
  { active := true, prevActive := true, birdY := y, birdV := v,
    score := 0, highScore := 0, attemptId := 1, pipes := [] }

/-- The state right after a flap from the resting origin at base
resolution: bird centered at y = 512, velocity -FLAP_STRENGTH, no pipes. -/
def exS3 : GameState := trajSt 512 (-8)

/-- The program's actual 50-tick trajectory from exS3: each tick truncates
the position to an integer, ending at position 412 with velocity 9/2. -/
lemma exS3_iter50 : (tickState baseCfg)^[50] exS3 = trajSt 412 (9/2) := by
  have h0 : (tickState baseCfg)^[0] exS3 = trajSt 512 (-8) := rfl
  have h1 : (tickState baseCfg)^[1] exS3 = trajSt 504 (-31/4) :=
    iterate_step (tickState baseCfg) 0 exS3 (trajSt 512 (-8)) (trajSt 504 (-31/4)) h0 (by
      rw [tick_noPipes baseCfg (trajSt 512 (-8)) rfl rfl 504
        (ratTrunc_eq_int _ _ (by norm_num [trajSt, GRAVITY]) (by norm_num [trajSt, GRAVITY])
          (by norm_num [trajSt, GRAVITY]))
        (by rw [base_ceiling]; norm_num [baseCfg])
        (by rw [base_floor]; norm_num [baseCfg])]
      simp only [trajSt, GameState.mk.injEq]
      norm_num [GRAVITY])
  have h2 : (tickState baseCfg)^[2] exS3 = trajSt 496 (-15/2) :=
    iterate_step (tickState baseCfg) 1 exS3 (trajSt 504 (-31/4)) (trajSt 496 (-15/2)) h1 (by
      rw [tick_noPipes baseCfg (trajSt 504 (-31/4)) rfl rfl 496
        (ratTrunc_eq_int _ _ (by norm_num [trajSt, GRAVITY]) (by norm_num [trajSt, GRAVITY])
          (by norm_num [trajSt, GRAVITY]))
        (by rw [base_ceiling]; norm_num [baseCfg])
        (by rw [base_floor]; norm_num [baseCfg])]
      simp only [trajSt, GameState.mk.injEq]
      norm_num [GRAVITY])
  have h3 : (tickState baseCfg)^[3] exS3 = trajSt 488 (-29/4) :=
    iterate_step (tickState baseCfg) 2 exS3 (trajSt 496 (-15/2)) (trajSt 488 (-29/4)) h2 (by
      rw [tick_noPipes baseCfg (trajSt 496 (-15/2)) rfl rfl 488
        (ratTrunc_eq_int _ _ (by norm_num [trajSt, GRAVITY]) (by norm_num [trajSt, GRAVITY])
          (by norm_num [trajSt, GRAVITY]))
        (by rw [base_ceiling]; norm_num [baseCfg])
        (by rw [base_floor]; norm_num [baseCfg])]
      simp only [trajSt, GameState.mk.injEq]
      norm_num [GRAVITY])
  have h4 : (tickState baseCfg)^[4] exS3 = trajSt 481 (-7) :=
    iterate_step (tickState baseCfg) 3 exS3 (trajSt 488 (-29/4)) (trajSt 481 (-7)) h3 (by
      rw [tick_noPipes baseCfg (trajSt 488 (-29/4)) rfl rfl 481
        (ratTrunc_eq_int _ _ (by norm_num [trajSt, GRAVITY]) (by norm_num [trajSt, GRAVITY])
          (by norm_num [trajSt, GRAVITY]))
        (by rw [base_ceiling]; norm_num [baseCfg])
        (by rw [base_floor]; norm_num [baseCfg])]
      simp only [trajSt, GameState.mk.injEq]
      norm_num [GRAVITY])
  have h5 : (tickState baseCfg)^[5] exS3 = trajSt 474 (-27/4) :=
    iterate_step (tickState baseCfg) 4 exS3 (trajSt 481 (-7)) (trajSt 474 (-27/4)) h4 (by
      rw [tick_noPipes baseCfg (trajSt 481 (-7)) rfl rfl 474
        (ratTrunc_eq_int _ _ (by norm_num [trajSt, GRAVITY]) (by norm_num [trajSt, GRAVITY])
          (by norm_num [trajSt, GRAVITY]))
        (by rw [base_ceiling]; norm_num [baseCfg])
        (by rw [base_floor]; norm_num [baseCfg])]
      simp only [trajSt, GameState.mk.injEq]
      norm_num [GRAVITY])
  have h6 : (tickState baseCfg)^[6] exS3 = trajSt 467 (-13/2) :=
    iterate_step (tickState baseCfg) 5 exS3 (trajSt 474 (-27/4)) (trajSt 467 (-13/2)) h5 (by
      rw [tick_noPipes baseCfg (trajSt 474 (-27/4)) rfl rfl 467
        (ratTrunc_eq_int _ _ (by norm_num [trajSt, GRAVITY]) (by norm_num [trajSt, GRAVITY])
          (by norm_num [trajSt, GRAVITY]))
        (by rw [base_ceiling]; norm_num [baseCfg])
        (by rw [base_floor]; norm_num [baseCfg])]
      simp only [trajSt, GameState.mk.injEq]
      norm_num [GRAVITY])
  have h7 : (tickState baseCfg)^[7] exS3 = trajSt 460 (-25/4) :=
    iterate_step (tickState baseCfg) 6 exS3 (trajSt 467 (-13/2)) (trajSt 460 (-25/4)) h6 (by
      rw [tick_noPipes baseCfg (trajSt 467 (-13/2)) rfl rfl 460
        (ratTrunc_eq_int _ _ (by norm_num [trajSt, GRAVITY]) (by norm_num [trajSt, GRAVITY])
          (by norm_num [trajSt, GRAVITY]))
        (by rw [base_ceiling]; norm_num [baseCfg])
        (by rw [base_floor]; norm_num [baseCfg])]
      simp only [trajSt, GameState.mk.injEq]
      norm_num [GRAVITY])
  have h8 : (tickState baseCfg)^[8] exS3 = trajSt 454 (-6) :=
    iterate_step (tickState baseCfg) 7 exS3 (trajSt 460 (-25/4)) (trajSt 454 (-6)) h7 (by
      rw [tick_noPipes baseCfg (trajSt 460 (-25/4)) rfl rfl 454
        (ratTrunc_eq_int _ _ (by norm_num [trajSt, GRAVITY]) (by norm_num [trajSt, GRAVITY])
          (by norm_num [trajSt, GRAVITY]))
        (by rw [base_ceiling]; norm_num [baseCfg])
        (by rw [base_floor]; norm_num [baseCfg])]
      simp only [trajSt, GameState.mk.injEq]
      norm_num [GRAVITY])
  have h9 : (tickState baseCfg)^[9] exS3 = trajSt 448 (-23/4) :=
    iterate_step (tickState baseCfg) 8 exS3 (trajSt 454 (-6)) (trajSt 448 (-23/4)) h8 (by
      rw [tick_noPipes baseCfg (trajSt 454 (-6)) rfl rfl 448
        (ratTrunc_eq_int _ _ (by norm_num [trajSt, GRAVITY]) (by norm_num [trajSt, GRAVITY])
          (by norm_num [trajSt, GRAVITY]))
        (by rw [base_ceiling]; norm_num [baseCfg])
        (by rw [base_floor]; norm_num [baseCfg])]
      simp only [trajSt, GameState.mk.injEq]
      norm_num [GRAVITY])
  have h10 : (tickState baseCfg)^[10] exS3 = trajSt 442 (-11/2) :=
    iterate_step (tickState baseCfg) 9 exS3 (trajSt 448 (-23/4)) (trajSt 442 (-11/2)) h9 (by
      rw [tick_noPipes baseCfg (trajSt 448 (-23/4)) rfl rfl 442
        (ratTrunc_eq_int _ _ (by norm_num [trajSt, GRAVITY]) (by norm_num [trajSt, GRAVITY])
          (by norm_num [trajSt, GRAVITY]))
        (by rw [base_ceiling]; norm_num [baseCfg])
        (by rw [base_floor]; norm_num [baseCfg])]
      simp only [trajSt, GameState.mk.injEq]
      norm_num [GRAVITY])
  have h11 : (tickState baseCfg)^[11] exS3 = trajSt 436 (-21/4) :=
    iterate_step (tickState baseCfg) 10 exS3 (trajSt 442 (-11/2)) (trajSt 436 (-21/4)) h10 (by
      rw [tick_noPipes baseCfg (trajSt 442 (-11/2)) rfl rfl 436
        (ratTrunc_eq_int _ _ (by norm_num [trajSt, GRAVITY]) (by norm_num [trajSt, GRAVITY])
          (by norm_num [trajSt, GRAVITY]))
        (by rw [base_ceiling]; norm_num [baseCfg])
        (by rw [base_floor]; norm_num [baseCfg])]
      simp only [trajSt, GameState.mk.injEq]
      norm_num [GRAVITY])
  have h12 : (tickState baseCfg)^[12] exS3 = trajSt 431 (-5) :=
    iterate_step (tickState baseCfg) 11 exS3 (trajSt 436 (-21/4)) (trajSt 431 (-5)) h11 (by
      rw [tick_noPipes baseCfg (trajSt 436 (-21/4)) rfl rfl 431
        (ratTrunc_eq_int _ _ (by norm_num [trajSt, GRAVITY]) (by norm_num [trajSt, GRAVITY])
          (by norm_num [trajSt, GRAVITY]))
        (by rw [base_ceiling]; norm_num [baseCfg])
        (by rw [base_floor]; norm_num [baseCfg])]
      simp only [trajSt, GameState.mk.injEq]
      norm_num [GRAVITY])
  have h13 : (tickState baseCfg)^[13] exS3 = trajSt 426 (-19/4) :=
    iterate_step (tickState baseCfg) 12 exS3 (trajSt 431 (-5)) (trajSt 426 (-19/4)) h12 (by
      rw [tick_noPipes baseCfg (trajSt 431 (-5)) rfl rfl 426
        (ratTrunc_eq_int _ _ (by norm_num [trajSt, GRAVITY]) (by norm_num [trajSt, GRAVITY])
          (by norm_num [trajSt, GRAVITY]))
        (by rw [base_ceiling]; norm_num [baseCfg])
        (by rw [base_floor]; norm_num [baseCfg])]
      simp only [trajSt, GameState.mk.injEq]
      norm_num [GRAVITY])
  have h14 : (tickState baseCfg)^[14] exS3 = trajSt 421 (-9/2) :=
    iterate_step (tickState baseCfg) 13 exS3 (trajSt 426 (-19/4)) (trajSt 421 (-9/2)) h13 (by
      rw [tick_noPipes baseCfg (trajSt 426 (-19/4)) rfl rfl 421
        (ratTrunc_eq_int _ _ (by norm_num [trajSt, GRAVITY]) (by norm_num [trajSt, GRAVITY])
          (by norm_num [trajSt, GRAVITY]))
        (by rw [base_ceiling]; norm_num [baseCfg])
        (by rw [base_floor]; norm_num [baseCfg])]
      simp only [trajSt, GameState.mk.injEq]
      norm_num [GRAVITY])
  have h15 : (tickState baseCfg)^[15] exS3 = trajSt 416 (-17/4) :=
    iterate_step (tickState baseCfg) 14 exS3 (trajSt 421 (-9/2)) (trajSt 416 (-17/4)) h14 (by
      rw [tick_noPipes baseCfg (trajSt 421 (-9/2)) rfl rfl 416
        (ratTrunc_eq_int _ _ (by norm_num [trajSt, GRAVITY]) (by norm_num [trajSt, GRAVITY])
          (by norm_num [trajSt, GRAVITY]))
        (by rw [base_ceiling]; norm_num [baseCfg])
        (by rw [base_floor]; norm_num [baseCfg])]
      simp only [trajSt, GameState.mk.injEq]
      norm_num [GRAVITY])
  have h16 : (tickState baseCfg)^[16] exS3 = trajSt 412 (-4) :=
    iterate_step (tickState baseCfg) 15 exS3 (trajSt 416 (-17/4)) (trajSt 412 (-4)) h15 (by
      rw [tick_noPipes baseCfg (trajSt 416 (-17/4)) rfl rfl 412
        (ratTrunc_eq_int _ _ (by norm_num [trajSt, GRAVITY]) (by norm_num [trajSt, GRAVITY])
          (by norm_num [trajSt, GRAVITY]))
        (by rw [base_ceiling]; norm_num [baseCfg])
        (by rw [base_floor]; norm_num [baseCfg])]
      simp only [trajSt, GameState.mk.injEq]
      norm_num [GRAVITY])
  have h17 : (tickState baseCfg)^[17] exS3 = trajSt 408 (-15/4) :=
    iterate_step (tickState baseCfg) 16 exS3 (trajSt 412 (-4)) (trajSt 408 (-15/4)) h16 (by
      rw [tick_noPipes baseCfg (trajSt 412 (-4)) rfl rfl 408
        (ratTrunc_eq_int _ _ (by norm_num [trajSt, GRAVITY]) (by norm_num [trajSt, GRAVITY])
          (by norm_num [trajSt, GRAVITY]))
        (by rw [base_ceiling]; norm_num [baseCfg])
        (by rw [base_floor]; norm_num [baseCfg])]
      simp only [trajSt, GameState.mk.injEq]
      norm_num [GRAVITY])
  have h18 : (tickState baseCfg)^[18] exS3 = trajSt 404 (-7/2) :=
    iterate_step (tickState baseCfg) 17 exS3 (trajSt 408 (-15/4)) (trajSt 404 (-7/2)) h17 (by
      rw [tick_noPipes baseCfg (trajSt 408 (-15/4)) rfl rfl 404
        (ratTrunc_eq_int _ _ (by norm_num [trajSt, GRAVITY]) (by norm_num [trajSt, GRAVITY])
          (by norm_num [trajSt, GRAVITY]))
        (by rw [base_ceiling]; norm_num [baseCfg])
        (by rw [base_floor]; norm_num [baseCfg])]
      simp only [trajSt, GameState.mk.injEq]
      norm_num [GRAVITY])
  have h19 : (tickState baseCfg)^[19] exS3 = trajSt 400 (-13/4) :=
    iterate_step (tickState baseCfg) 18 exS3 (trajSt 404 (-7/2)) (trajSt 400 (-13/4)) h18 (by
      rw [tick_noPipes baseCfg (trajSt 404 (-7/2)) rfl rfl 400
        (ratTrunc_eq_int _ _ (by norm_num [trajSt, GRAVITY]) (by norm_num [trajSt, GRAVITY])
          (by norm_num [trajSt, GRAVITY]))
        (by rw [base_ceiling]; norm_num [baseCfg])
        (by rw [base_floor]; norm_num [baseCfg])]
      simp only [trajSt, GameState.mk.injEq]
      norm_num [GRAVITY])
  have h20 : (tickState baseCfg)^[20] exS3 = trajSt 397 (-3) :=
    iterate_step (tickState baseCfg) 19 exS3 (trajSt 400 (-13/4)) (trajSt 397 (-3)) h19 (by
      rw [tick_noPipes baseCfg (trajSt 400 (-13/4)) rfl rfl 397
        (ratTrunc_eq_int _ _ (by norm_num [trajSt, GRAVITY]) (by norm_num [trajSt, GRAVITY])
          (by norm_num [trajSt, GRAVITY]))
        (by rw [base_ceiling]; norm_num [baseCfg])
        (by rw [base_floor]; norm_num [baseCfg])]
      simp only [trajSt, GameState.mk.injEq]
      norm_num [GRAVITY])
  have h21 : (tickState baseCfg)^[21] exS3 = trajSt 394 (-11/4) :=
    iterate_step (tickState baseCfg) 20 exS3 (trajSt 397 (-3)) (trajSt 394 (-11/4)) h20 (by
      rw [tick_noPipes baseCfg (trajSt 397 (-3)) rfl rfl 394
        (ratTrunc_eq_int _ _ (by norm_num [trajSt, GRAVITY]) (by norm_num [trajSt, GRAVITY])
          (by norm_num [trajSt, GRAVITY]))
        (by rw [base_ceiling]; norm_num [baseCfg])
        (by rw [base_floor]; norm_num [baseCfg])]
      simp only [trajSt, GameState.mk.injEq]
      norm_num [GRAVITY])
  have h22 : (tickState baseCfg)^[22] exS3 = trajSt 391 (-5/2) :=
    iterate_step (tickState baseCfg) 21 exS3 (trajSt 394 (-11/4)) (trajSt 391 (-5/2)) h21 (by
      rw [tick_noPipes baseCfg (trajSt 394 (-11/4)) rfl rfl 391
        (ratTrunc_eq_int _ _ (by norm_num [trajSt, GRAVITY]) (by norm_num [trajSt, GRAVITY])
          (by norm_num [trajSt, GRAVITY]))
        (by rw [base_ceiling]; norm_num [baseCfg])
        (by rw [base_floor]; norm_num [baseCfg])]
      simp only [trajSt, GameState.mk.injEq]
      norm_num [GRAVITY])
  have h23 : (tickState baseCfg)^[23] exS3 = trajSt 388 (-9/4) :=
    iterate_step (tickState baseCfg) 22 exS3 (trajSt 391 (-5/2)) (trajSt 388 (-9/4)) h22 (by
      rw [tick_noPipes baseCfg (trajSt 391 (-5/2)) rfl rfl 388
        (ratTrunc_eq_int _ _ (by norm_num [trajSt, GRAVITY]) (by norm_num [trajSt, GRAVITY])
          (by norm_num [trajSt, GRAVITY]))
        (by rw [base_ceiling]; norm_num [baseCfg])
        (by rw [base_floor]; norm_num [baseCfg])]
      simp only [trajSt, GameState.mk.injEq]
      norm_num [GRAVITY])
  have h24 : (tickState baseCfg)^[24] exS3 = trajSt 386 (-2) :=
    iterate_step (tickState baseCfg) 23 exS3 (trajSt 388 (-9/4)) (trajSt 386 (-2)) h23 (by
      rw [tick_noPipes baseCfg (trajSt 388 (-9/4)) rfl rfl 386
        (ratTrunc_eq_int _ _ (by norm_num [trajSt, GRAVITY]) (by norm_num [trajSt, GRAVITY])
          (by norm_num [trajSt, GRAVITY]))
        (by rw [base_ceiling]; norm_num [baseCfg])
        (by rw [base_floor]; norm_num [baseCfg])]
      simp only [trajSt, GameState.mk.injEq]
      norm_num [GRAVITY])
  have h25 : (tickState baseCfg)^[25] exS3 = trajSt 384 (-7/4) :=
    iterate_step (tickState baseCfg) 24 exS3 (trajSt 386 (-2)) (trajSt 384 (-7/4)) h24 (by
      rw [tick_noPipes baseCfg (trajSt 386 (-2)) rfl rfl 384
        (ratTrunc_eq_int _ _ (by norm_num [trajSt, GRAVITY]) (by norm_num [trajSt, GRAVITY])
          (by norm_num [trajSt, GRAVITY]))
        (by rw [base_ceiling]; norm_num [baseCfg])
        (by rw [base_floor]; norm_num [baseCfg])]
      simp only [trajSt, GameState.mk.injEq]
      norm_num [GRAVITY])
  have h26 : (tickState baseCfg)^[26] exS3 = trajSt 382 (-3/2) :=
    iterate_step (tickState baseCfg) 25 exS3 (trajSt 384 (-7/4)) (trajSt 382 (-3/2)) h25 (by
      rw [tick_noPipes baseCfg (trajSt 384 (-7/4)) rfl rfl 382
        (ratTrunc_eq_int _ _ (by norm_num [trajSt, GRAVITY]) (by norm_num [trajSt, GRAVITY])
          (by norm_num [trajSt, GRAVITY]))
        (by rw [base_ceiling]; norm_num [baseCfg])
        (by rw [base_floor]; norm_num [baseCfg])]
      simp only [trajSt, GameState.mk.injEq]
      norm_num [GRAVITY])
  have h27 : (tickState baseCfg)^[27] exS3 = trajSt 380 (-5/4) :=
    iterate_step (tickState baseCfg) 26 exS3 (trajSt 382 (-3/2)) (trajSt 380 (-5/4)) h26 (by
      rw [tick_noPipes baseCfg (trajSt 382 (-3/2)) rfl rfl 380
        (ratTrunc_eq_int _ _ (by norm_num [trajSt, GRAVITY]) (by norm_num [trajSt, GRAVITY])
          (by norm_num [trajSt, GRAVITY]))
        (by rw [base_ceiling]; norm_num [baseCfg])
        (by rw [base_floor]; norm_num [baseCfg])]
      simp only [trajSt, GameState.mk.injEq]
      norm_num [GRAVITY])
  have h28 : (tickState baseCfg)^[28] exS3 = trajSt 379 (-1) :=
    iterate_step (tickState baseCfg) 27 exS3 (trajSt 380 (-5/4)) (trajSt 379 (-1)) h27 (by
      rw [tick_noPipes baseCfg (trajSt 380 (-5/4)) rfl rfl 379
        (ratTrunc_eq_int _ _ (by norm_num [trajSt, GRAVITY]) (by norm_num [trajSt, GRAVITY])
          (by norm_num [trajSt, GRAVITY]))
        (by rw [base_ceiling]; norm_num [baseCfg])
        (by rw [base_floor]; norm_num [baseCfg])]
      simp only [trajSt, GameState.mk.injEq]
      norm_num [GRAVITY])
  have h29 : (tickState baseCfg)^[29] exS3 = trajSt 378 (-3/4) :=
    iterate_step (tickState baseCfg) 28 exS3 (trajSt 379 (-1)) (trajSt 378 (-3/4)) h28 (by
      rw [tick_noPipes baseCfg (trajSt 379 (-1)) rfl rfl 378
        (ratTrunc_eq_int _ _ (by norm_num [trajSt, GRAVITY]) (by norm_num [trajSt, GRAVITY])
          (by norm_num [trajSt, GRAVITY]))
        (by rw [base_ceiling]; norm_num [baseCfg])
        (by rw [base_floor]; norm_num [baseCfg])]
      simp only [trajSt, GameState.mk.injEq]
      norm_num [GRAVITY])
  have h30 : (tickState baseCfg)^[30] exS3 = trajSt 377 (-1/2) :=
    iterate_step (tickState baseCfg) 29 exS3 (trajSt 378 (-3/4)) (trajSt 377 (-1/2)) h29 (by
      rw [tick_noPipes baseCfg (trajSt 378 (-3/4)) rfl rfl 377
        (ratTrunc_eq_int _ _ (by norm_num [trajSt, GRAVITY]) (by norm_num [trajSt, GRAVITY])
          (by norm_num [trajSt, GRAVITY]))
        (by rw [base_ceiling]; norm_num [baseCfg])
        (by rw [base_floor]; norm_num [baseCfg])]
      simp only [trajSt, GameState.mk.injEq]
      norm_num [GRAVITY])
  have h31 : (tickState baseCfg)^[31] exS3 = trajSt 376 (-1/4) :=
    iterate_step (tickState baseCfg) 30 exS3 (trajSt 377 (-1/2)) (trajSt 376 (-1/4)) h30 (by
      rw [tick_noPipes baseCfg (trajSt 377 (-1/2)) rfl rfl 376
        (ratTrunc_eq_int _ _ (by norm_num [trajSt, GRAVITY]) (by norm_num [trajSt, GRAVITY])
          (by norm_num [trajSt, GRAVITY]))
        (by rw [base_ceiling]; norm_num [baseCfg])
        (by rw [base_floor]; norm_num [baseCfg])]
      simp only [trajSt, GameState.mk.injEq]
      norm_num [GRAVITY])
  have h32 : (tickState baseCfg)^[32] exS3 = trajSt 376 0 :=
    iterate_step (tickState baseCfg) 31 exS3 (trajSt 376 (-1/4)) (trajSt 376 0) h31 (by
      rw [tick_noPipes baseCfg (trajSt 376 (-1/4)) rfl rfl 376
        (ratTrunc_eq_int _ _ (by norm_num [trajSt, GRAVITY]) (by norm_num [trajSt, GRAVITY])
          (by norm_num [trajSt, GRAVITY]))
        (by rw [base_ceiling]; norm_num [baseCfg])
        (by rw [base_floor]; norm_num [baseCfg])]
      simp only [trajSt, GameState.mk.injEq]
      norm_num [GRAVITY])
  have h33 : (tickState baseCfg)^[33] exS3 = trajSt 376 (1/4) :=
    iterate_step (tickState baseCfg) 32 exS3 (trajSt 376 0) (trajSt 376 (1/4)) h32 (by
      rw [tick_noPipes baseCfg (trajSt 376 0) rfl rfl 376
        (ratTrunc_eq_int _ _ (by norm_num [trajSt, GRAVITY]) (by norm_num [trajSt, GRAVITY])
          (by norm_num [trajSt, GRAVITY]))
        (by rw [base_ceiling]; norm_num [baseCfg])
        (by rw [base_floor]; norm_num [baseCfg])]
      simp only [trajSt, GameState.mk.injEq]
      norm_num [GRAVITY])
  have h34 : (tickState baseCfg)^[34] exS3 = trajSt 376 (1/2) :=
    iterate_step (tickState baseCfg) 33 exS3 (trajSt 376 (1/4)) (trajSt 376 (1/2)) h33 (by
      rw [tick_noPipes baseCfg (trajSt 376 (1/4)) rfl rfl 376
        (ratTrunc_eq_int _ _ (by norm_num [trajSt, GRAVITY]) (by norm_num [trajSt, GRAVITY])
          (by norm_num [trajSt, GRAVITY]))
        (by rw [base_ceiling]; norm_num [baseCfg])
        (by rw [base_floor]; norm_num [baseCfg])]
      simp only [trajSt, GameState.mk.injEq]
      norm_num [GRAVITY])
  have h35 : (tickState baseCfg)^[35] exS3 = trajSt 376 (3/4) :=
    iterate_step (tickState baseCfg) 34 exS3 (trajSt 376 (1/2)) (trajSt 376 (3/4)) h34 (by
      rw [tick_noPipes baseCfg (trajSt 376 (1/2)) rfl rfl 376
        (ratTrunc_eq_int _ _ (by norm_num [trajSt, GRAVITY]) (by norm_num [trajSt, GRAVITY])
          (by norm_num [trajSt, GRAVITY]))
        (by rw [base_ceiling]; norm_num [baseCfg])
        (by rw [base_floor]; norm_num [baseCfg])]
      simp only [trajSt, GameState.mk.injEq]
      norm_num [GRAVITY])
  have h36 : (tickState baseCfg)^[36] exS3 = trajSt 377 1 :=
    iterate_step (tickState baseCfg) 35 exS3 (trajSt 376 (3/4)) (trajSt 377 1) h35 (by
      rw [tick_noPipes baseCfg (trajSt 376 (3/4)) rfl rfl 377
        (ratTrunc_eq_int _ _ (by norm_num [trajSt, GRAVITY]) (by norm_num [trajSt, GRAVITY])
          (by norm_num [trajSt, GRAVITY]))
        (by rw [base_ceiling]; norm_num [baseCfg])
        (by rw [base_floor]; norm_num [baseCfg])]
      simp only [trajSt, GameState.mk.injEq]
      norm_num [GRAVITY])
  have h37 : (tickState baseCfg)^[37] exS3 = trajSt 378 (5/4) :=
    iterate_step (tickState baseCfg) 36 exS3 (trajSt 377 1) (trajSt 378 (5/4)) h36 (by
      rw [tick_noPipes baseCfg (trajSt 377 1) rfl rfl 378
        (ratTrunc_eq_int _ _ (by norm_num [trajSt, GRAVITY]) (by norm_num [trajSt, GRAVITY])
          (by norm_num [trajSt, GRAVITY]))
        (by rw [base_ceiling]; norm_num [baseCfg])
        (by rw [base_floor]; norm_num [baseCfg])]
      simp only [trajSt, GameState.mk.injEq]
      norm_num [GRAVITY])
  have h38 : (tickState baseCfg)^[38] exS3 = trajSt 379 (3/2) :=
    iterate_step (tickState baseCfg) 37 exS3 (trajSt 378 (5/4)) (trajSt 379 (3/2)) h37 (by
      rw [tick_noPipes baseCfg (trajSt 378 (5/4)) rfl rfl 379
        (ratTrunc_eq_int _ _ (by norm_num [trajSt, GRAVITY]) (by norm_num [trajSt, GRAVITY])
          (by norm_num [trajSt, GRAVITY]))
        (by rw [base_ceiling]; norm_num [baseCfg])
        (by rw [base_floor]; norm_num [baseCfg])]
      simp only [trajSt, GameState.mk.injEq]
      norm_num [GRAVITY])
  have h39 : (tickState baseCfg)^[39] exS3 = trajSt 380 (7/4) :=
    iterate_step (tickState baseCfg) 38 exS3 (trajSt 379 (3/2)) (trajSt 380 (7/4)) h38 (by
      rw [tick_noPipes baseCfg (trajSt 379 (3/2)) rfl rfl 380
        (ratTrunc_eq_int _ _ (by norm_num [trajSt, GRAVITY]) (by norm_num [trajSt, GRAVITY])
          (by norm_num [trajSt, GRAVITY]))
        (by rw [base_ceiling]; norm_num [baseCfg])
        (by rw [base_floor]; norm_num [baseCfg])]
      simp only [trajSt, GameState.mk.injEq]
      norm_num [GRAVITY])
  have h40 : (tickState baseCfg)^[40] exS3 = trajSt 382 2 :=
    iterate_step (tickState baseCfg) 39 exS3 (trajSt 380 (7/4)) (trajSt 382 2) h39 (by
      rw [tick_noPipes baseCfg (trajSt 380 (7/4)) rfl rfl 382
        (ratTrunc_eq_int _ _ (by norm_num [trajSt, GRAVITY]) (by norm_num [trajSt, GRAVITY])
          (by norm_num [trajSt, GRAVITY]))
        (by rw [base_ceiling]; norm_num [baseCfg])
        (by rw [base_floor]; norm_num [baseCfg])]
      simp only [trajSt, GameState.mk.injEq]
      norm_num [GRAVITY])
  have h41 : (tickState baseCfg)^[41] exS3 = trajSt 384 (9/4) :=
    iterate_step (tickState baseCfg) 40 exS3 (trajSt 382 2) (trajSt 384 (9/4)) h40 (by
      rw [tick_noPipes baseCfg (trajSt 382 2) rfl rfl 384
        (ratTrunc_eq_int _ _ (by norm_num [trajSt, GRAVITY]) (by norm_num [trajSt, GRAVITY])
          (by norm_num [trajSt, GRAVITY]))
        (by rw [base_ceiling]; norm_num [baseCfg])
        (by rw [base_floor]; norm_num [baseCfg])]
      simp only [trajSt, GameState.mk.injEq]
      norm_num [GRAVITY])
  have h42 : (tickState baseCfg)^[42] exS3 = trajSt 386 (5/2) :=
    iterate_step (tickState baseCfg) 41 exS3 (trajSt 384 (9/4)) (trajSt 386 (5/2)) h41 (by
      rw [tick_noPipes baseCfg (trajSt 384 (9/4)) rfl rfl 386
        (ratTrunc_eq_int _ _ (by norm_num [trajSt, GRAVITY]) (by norm_num [trajSt, GRAVITY])
          (by norm_num [trajSt, GRAVITY]))
        (by rw [base_ceiling]; norm_num [baseCfg])
        (by rw [base_floor]; norm_num [baseCfg])]
      simp only [trajSt, GameState.mk.injEq]
      norm_num [GRAVITY])
  have h43 : (tickState baseCfg)^[43] exS3 = trajSt 388 (11/4) :=
    iterate_step (tickState baseCfg) 42 exS3 (trajSt 386 (5/2)) (trajSt 388 (11/4)) h42 (by
      rw [tick_noPipes baseCfg (trajSt 386 (5/2)) rfl rfl 388
        (ratTrunc_eq_int _ _ (by norm_num [trajSt, GRAVITY]) (by norm_num [trajSt, GRAVITY])
          (by norm_num [trajSt, GRAVITY]))
        (by rw [base_ceiling]; norm_num [baseCfg])
        (by rw [base_floor]; norm_num [baseCfg])]
      simp only [trajSt, GameState.mk.injEq]
      norm_num [GRAVITY])
  have h44 : (tickState baseCfg)^[44] exS3 = trajSt 391 3 :=
    iterate_step (tickState baseCfg) 43 exS3 (trajSt 388 (11/4)) (trajSt 391 3) h43 (by
      rw [tick_noPipes baseCfg (trajSt 388 (11/4)) rfl rfl 391
        (ratTrunc_eq_int _ _ (by norm_num [trajSt, GRAVITY]) (by norm_num [trajSt, GRAVITY])
          (by norm_num [trajSt, GRAVITY]))
        (by rw [base_ceiling]; norm_num [baseCfg])
        (by rw [base_floor]; norm_num [baseCfg])]
      simp only [trajSt, GameState.mk.injEq]
      norm_num [GRAVITY])
  have h45 : (tickState baseCfg)^[45] exS3 = trajSt 394 (13/4) :=
    iterate_step (tickState baseCfg) 44 exS3 (trajSt 391 3) (trajSt 394 (13/4)) h44 (by
      rw [tick_noPipes baseCfg (trajSt 391 3) rfl rfl 394
        (ratTrunc_eq_int _ _ (by norm_num [trajSt, GRAVITY]) (by norm_num [trajSt, GRAVITY])
          (by norm_num [trajSt, GRAVITY]))
        (by rw [base_ceiling]; norm_num [baseCfg])
        (by rw [base_floor]; norm_num [baseCfg])]
      simp only [trajSt, GameState.mk.injEq]
      norm_num [GRAVITY])
  have h46 : (tickState baseCfg)^[46] exS3 = trajSt 397 (7/2) :=
    iterate_step (tickState baseCfg) 45 exS3 (trajSt 394 (13/4)) (trajSt 397 (7/2)) h45 (by
      rw [tick_noPipes baseCfg (trajSt 394 (13/4)) rfl rfl 397
        (ratTrunc_eq_int _ _ (by norm_num [trajSt, GRAVITY]) (by norm_num [trajSt, GRAVITY])
          (by norm_num [trajSt, GRAVITY]))
        (by rw [base_ceiling]; norm_num [baseCfg])
        (by rw [base_floor]; norm_num [baseCfg])]
      simp only [trajSt, GameState.mk.injEq]
      norm_num [GRAVITY])
  have h47 : (tickState baseCfg)^[47] exS3 = trajSt 400 (15/4) :=
    iterate_step (tickState baseCfg) 46 exS3 (trajSt 397 (7/2)) (trajSt 400 (15/4)) h46 (by
      rw [tick_noPipes baseCfg (trajSt 397 (7/2)) rfl rfl 400
        (ratTrunc_eq_int _ _ (by norm_num [trajSt, GRAVITY]) (by norm_num [trajSt, GRAVITY])
          (by norm_num [trajSt, GRAVITY]))
        (by rw [base_ceiling]; norm_num [baseCfg])
        (by rw [base_floor]; norm_num [baseCfg])]
      simp only [trajSt, GameState.mk.injEq]
      norm_num [GRAVITY])
  have h48 : (tickState baseCfg)^[48] exS3 = trajSt 404 4 :=
    iterate_step (tickState baseCfg) 47 exS3 (trajSt 400 (15/4)) (trajSt 404 4) h47 (by
      rw [tick_noPipes baseCfg (trajSt 400 (15/4)) rfl rfl 404
        (ratTrunc_eq_int _ _ (by norm_num [trajSt, GRAVITY]) (by norm_num [trajSt, GRAVITY])
          (by norm_num [trajSt, GRAVITY]))
        (by rw [base_ceiling]; norm_num [baseCfg])
        (by rw [base_floor]; norm_num [baseCfg])]
      simp only [trajSt, GameState.mk.injEq]
      norm_num [GRAVITY])
  have h49 : (tickState baseCfg)^[49] exS3 = trajSt 408 (17/4) :=
    iterate_step (tickState baseCfg) 48 exS3 (trajSt 404 4) (trajSt 408 (17/4)) h48 (by
      rw [tick_noPipes baseCfg (trajSt 404 4) rfl rfl 408
        (ratTrunc_eq_int _ _ (by norm_num [trajSt, GRAVITY]) (by norm_num [trajSt, GRAVITY])
          (by norm_num [trajSt, GRAVITY]))
        (by rw [base_ceiling]; norm_num [baseCfg])
        (by rw [base_floor]; norm_num [baseCfg])]
      simp only [trajSt, GameState.mk.injEq]
      norm_num [GRAVITY])
  have h50 : (tickState baseCfg)^[50] exS3 = trajSt 412 (9/2) :=
    iterate_step (tickState baseCfg) 49 exS3 (trajSt 408 (17/4)) (trajSt 412 (9/2)) h49 (by
      rw [tick_noPipes baseCfg (trajSt 408 (17/4)) rfl rfl 412
        (ratTrunc_eq_int _ _ (by norm_num [trajSt, GRAVITY]) (by norm_num [trajSt, GRAVITY])
          (by norm_num [trajSt, GRAVITY]))
        (by rw [base_ceiling]; norm_num [baseCfg])
        (by rw [base_floor]; norm_num [baseCfg])]
      simp only [trajSt, GameState.mk.injEq]
      norm_num [GRAVITY])
  exact h50

/-- The closed-form sum the specification claims: from y0 = 512 and
v0 = -FLAP_STRENGTH it evaluates to 1723/4 = 430.75. -/
lemma closed_sum_value :
    exS3.birdY + ∑ k in Finset.Icc (1 : ℕ) 50, (exS3.birdV + (k : ℚ) * GRAVITY) = 1723/4 := by
  have h1 : ∑ k in Finset.Icc (1 : ℕ) 50, (exS3.birdV + (k : ℚ) * GRAVITY)
      = ∑ k in Finset.range 50, (exS3.birdV + ((k : ℚ) + 1) * GRAVITY) := by
    rw [← Nat.Ico_succ_right, Finset.sum_Ico_eq_sum_range]
    exact Finset.sum_congr (by norm_num) (fun i _ => by push_cast; ring)
  rw [h1]
  norm_num [Finset.sum_range_succ, Finset.sum_range_zero, exS3, trajSt, GRAVITY]

/-- C3 (amended): on every active tick the velocity is incremented by
GRAVITY first and the position then becomes int(position + velocity) - the
pygame Rect assignment truncates toward zero; consequently, starting from
y0 = 512 with v0 = -FLAP_STRENGTH at base resolution and advancing 50
ticks with no further input, the position equals 412, the value of the
truncating recurrence, while the closed-form sum
y0 + sum over k = 1..50 of (v0 + k * GRAVITY) evaluates to 430.75 and
describes only the untruncated accumulation. -/
theorem C3_gravity_integration_amended :
    (∀ (cfg : Config) (t : GameState), t.active = true →
      (tickState cfg t).birdV = t.birdV + GRAVITY ∧
      (tickState cfg t).birdY = ((ratTrunc (t.birdY + (t.birdV + GRAVITY)) : ℤ) : ℚ)) ∧
    ((tickState baseCfg)^[50] exS3).birdY = 412 ∧
    exS3.birdY + ∑ k in Finset.Icc (1 : ℕ) 50, (exS3.birdV + (k : ℚ) * GRAVITY) = 1723/4 := by
  refine ⟨?_, ?_, closed_sum_value⟩
  · intro cfg t ht
    exact ⟨tick_active_birdV cfg t ht, tick_active_birdY cfg t ht⟩
  · rw [exS3_iter50]
    rfl

/-- C3 counterexample: the claim as stated is false of the code.  After 50
post-flap ticks from y0 = 512 the program's position is 412, not the
closed-form sum 430.75: the Rect truncation loses the fractional part
every tick. -/
theorem C3_gravity_integration_cex :
    ((tickState baseCfg)^[50] exS3).birdY ≠
      exS3.birdY + ∑ k in Finset.Icc (1 : ℕ) 50, (exS3.birdV + (k : ℚ) * GRAVITY) := by
  rw [exS3_iter50, closed_sum_value]
  norm_num [trajSt]

/-- C3 witness: the per-tick integration order at a concrete active state,
plus the concrete 50-tick result. -/
theorem C3_gravity_integration_amended_witness :
    (tickState baseCfg exActive).birdV = exActive.birdV + GRAVITY ∧
    (tickState baseCfg exActive).birdY =
      ((ratTrunc (exActive.birdY + (exActive.birdV + GRAVITY)) : ℤ) : ℚ) ∧
    ((tickState baseCfg)^[50] exS3).birdY = 412 :=
  ⟨(C3_gravity_integration_amended.1 baseCfg exActive rfl).1,
   (C3_gravity_integration_amended.1 baseCfg exActive rfl).2,
   C3_gravity_integration_amended.2.1⟩

lemma ceiling_threshold_negative (cfg : Config) (hH : 11 ≤ cfg.H) :
    scale_y cfg BASE_CEILING_COLLISION_Y < 0 := by
  have hHq : (11 : ℚ) ≤ (cfg.H : ℚ) := by exact_mod_cast hH
  have hq : BASE_CEILING_COLLISION_Y * (cfg.H : ℚ) / BASE_SCREEN_HEIGHT ≤ -1 := by
    rw [BASE_CEILING_COLLISION_Y.eq_def, BASE_SCREEN_HEIGHT.eq_def]
    rw [div_le_iff₀ (by norm_num : (0:ℚ) < 1024)]
    linarith
  have h0 : ¬ (0 ≤ BASE_CEILING_COLLISION_Y * (cfg.H : ℚ) / BASE_SCREEN_HEIGHT) := by
    linarith
  rw [scale_y, ratTrunc, if_neg h0]
  have hfl : (1 : ℤ) ≤ ⌊-(BASE_CEILING_COLLISION_Y * (cfg.H : ℚ) / BASE_SCREEN_HEIGHT)⌋ := by
    rw [Int.le_floor]
    push_cast
    linarith
  have : (-⌊-(BASE_CEILING_COLLISION_Y * (cfg.H : ℚ) / BASE_SCREEN_HEIGHT)⌋ : ℤ) ≤ -1 := by
    linarith
  calc ((-⌊-(BASE_CEILING_COLLISION_Y * (cfg.H : ℚ) / BASE_SCREEN_HEIGHT)⌋ : ℤ) : ℚ)
      ≤ ((-1 : ℤ) : ℚ) := by exact_mod_cast this
    _ < 0 := by norm_num

/-- C10: the ceiling collision threshold scale_y(-100) is a negative Y
coordinate (above the visible screen top) for any screen at least 11
pixels tall, so a bird whose rectangle top lies strictly between that
threshold and 0, intersecting no pipe and with its bottom above the floor
threshold, is reported collision-free: the bird can fly entirely off the
top of the visible screen without ending the attempt. -/
theorem C10_ceiling_above_screen : ∀ (cfg : Config) (bird : Rect) (pipes : List Rect),
    11 ≤ cfg.H →
    (∀ p ∈ pipes, bird.colliderect p = false) →
    scale_y cfg BASE_CEILING_COLLISION_Y < bird.top →
    bird.top ≤ 0 →
    bird.bottom < scale_y cfg BASE_FLOOR_COLLISION_Y →
    scale_y cfg BASE_CEILING_COLLISION_Y < 0 ∧
    check_collision cfg true bird pipes = (true, none, true, 0) := by
  intro cfg bird pipes hH hnp h1 _ h2
  exact ⟨ceiling_threshold_negative cfg hH,
    check_collision_clear cfg true bird pipes hnp h1 h2⟩

/-- A bird rectangle entirely above the visible screen top at base
resolution: top -50, bottom -2. -/
def exHigh : Rect := { left := 66, top := -50, width := 68, height := 48 }

/-- C10 witness: at base resolution the off-screen-high bird with no pipes
is collision-free and the ceiling threshold is negative. -/
theorem C10_ceiling_above_screen_witness :
    scale_y baseCfg BASE_CEILING_COLLISION_Y < 0 ∧
    check_collision baseCfg true exHigh [] = (true, none, true, 0) :=
  C10_ceiling_above_screen baseCfg exHigh []
    (by norm_num [baseCfg])
    (by intro p hp; simp at hp)
    (by rw [base_ceiling]; norm_num [exHigh])
    (by norm_num [exHigh])
    (by rw [base_floor]; norm_num [exHigh, Rect.bottom])
